import Mathlib

/-!
Shallow embedding of the signal/risk decision logic of the trading-strategy
plugins in `user_data/strategies/` (ComplexStrategy, SampleStrategyEnhanced,
FlexibleStrategy), together with theorems settling the specification claims
about them.

Modelling conventions:
* A pandas numeric column is a `List (Option ℚ)`: `none` is NaN (an indicator
  value inside its warm-up window), `some x` a defined value.  Python floats
  and `Decimal`s are modelled as exact rationals.
* pandas comparisons involving NaN are `False`; `optLtB` / `optLeB` encode
  this.
* The host data provider (`self.dp`) is a record of the dataframes the hooks
  may fetch; a fetch that fails returns `none`.
* Each hook is a total Lean function; the Python `try/except` blocks become
  `Option`-valued intermediate results.
-/

/-- Value of a pandas column at integer position `i` (`none` when out of range
or NaN at that position). -/
def valAt (s : List (Option ℚ)) (i : ℕ) : Option ℚ :=
  s.getD i none

/-- Value of `column.shift(1)` at position `i`: NaN at `i = 0`, else the value
at `i - 1`. -/
def shift1 (s : List (Option ℚ)) : ℕ → Option ℚ
  | 0 => none
  | j + 1 => valAt s j

/-- Strict `<` between two (possibly NaN) pandas values: `False` whenever either
side is NaN, as in pandas. -/
def optLtB : Option ℚ → Option ℚ → Bool
  | some a, some b => decide (a < b)
  | _, _ => false

/-- Non-strict `<=` between two (possibly NaN) pandas values: `False` whenever
either side is NaN, as in pandas. -/
def optLeB : Option ℚ → Option ℚ → Bool
  | some a, some b => decide (a ≤ b)
  | _, _ => false

/-- Modelled from the spec: `qtpylib.crossed_above(series, T)` (the `technical`
library is a third-party dependency, not part of this repository's sources).
Per the spec, crossing above threshold `T` at index `i` holds iff
`series[i-1] < T` and `series[i] >= T`; it is false at `i = 0` and false
whenever either of the two values involved is undefined (NaN). -/
def crossed_above (s : List (Option ℚ)) (T : ℚ) (i : ℕ) : Bool :=
  optLtB (shift1 s i) (some T) && optLeB (some T) (valAt s i)

/-- Mean of the trailing `n`-window of column `xs` ending at position `i`
(`column.rolling(n).mean()` at `i`): defined iff `i` has at least `n`
predecessors inclusive, `i` is in range, and no value in the window is NaN. -/
def rollingMean (n : ℕ) (xs : List (Option ℚ)) (i : ℕ) : Option ℚ :=
  if n ≤ i + 1 ∧ i < xs.length then
    (((xs.take (i + 1)).drop (i + 1 - n)).foldr
        (fun o acc =>
          match o, acc with
          | some x, some s => some (x + s)
          | _, _ => none)
        (some 0)).map (fun s => s / (n : ℚ))
  else none

/-- Per-bar `enter_long` flag of `ComplexStrategy.populate_entry_trend` (and of
the identical `SampleStrategyEnhanced.populate_entry_trend`): RSI crosses above
`buy_rsi`, TEMA below the Bollinger middle band, TEMA above its previous
value. -/
def complex_enter_long (rsi tema bb_middleband : List (Option ℚ))
    (buy_rsi : ℚ) (i : ℕ) : Bool :=
  crossed_above rsi buy_rsi i
    && optLtB (valAt tema i) (valAt bb_middleband i)
    && optLtB (shift1 tema i) (valAt tema i)

/-- Per-bar `exit_long` flag of `ComplexStrategy.populate_exit_trend` (and of
the identical `SampleStrategyEnhanced.populate_exit_trend`): RSI crosses above
`sell_rsi`, TEMA above the Bollinger middle band, TEMA below its previous
value. -/
def complex_exit_long (rsi tema bb_middleband : List (Option ℚ))
    (sell_rsi : ℚ) (i : ℕ) : Bool :=
  crossed_above rsi sell_rsi i
    && optLtB (valAt bb_middleband i) (valAt tema i)
    && optLtB (valAt tema i) (shift1 tema i)

/-- Per-bar `enter_long` flag of `FlexibleStrategy.populate_entry_trend`:
RSI below `buy_rsi`, ADX above `adx_threshold`, MACD histogram above
`macd_hist_threshold`, volume above its 14-bar rolling mean times
`volume_threshold`, close below the Bollinger middle band. -/
def flex_enter_long (rsi adx macdhist volume close bb_middleband : List (Option ℚ))
    (buy_rsi adx_threshold macd_hist_threshold volume_threshold : ℚ) (i : ℕ) : Bool :=
  optLtB (valAt rsi i) (some buy_rsi)
    && optLtB (some adx_threshold) (valAt adx i)
    && optLtB (some macd_hist_threshold) (valAt macdhist i)
    && optLtB ((rollingMean 14 volume i).map (fun m => m * volume_threshold)) (valAt volume i)
    && optLtB (valAt close i) (valAt bb_middleband i)

/-- Per-bar `exit_long` flag of `FlexibleStrategy.populate_exit_trend`:
RSI above `sell_rsi`, MACD histogram below 0, close above the Bollinger middle
band. -/
def flex_exit_long (rsi macdhist close bb_middleband : List (Option ℚ))
    (sell_rsi : ℚ) (i : ℕ) : Bool :=
  optLtB (some sell_rsi) (valAt rsi i)
    && optLtB (valAt macdhist i) (some 0)
    && optLtB (valAt bb_middleband i) (valAt close i)

/-- Modelled from the spec: `ta.EMA(dataframe, timeperiod=n)` (TA-Lib is a
third-party dependency, not part of this repository's sources).  Standard EMA:
undefined for the first `n - 1` positions, seeded with the simple mean of the
first `n` values, then `ema[i] = (x[i] - ema[i-1]) * 2/(n+1) + ema[i-1]`. -/
def emaAt (n : ℕ) (xs : List ℚ) : ℕ → Option ℚ
  | 0 => if n = 1 then xs.head? else none
  | i + 1 =>
    if i + 2 < n then none
    else if i + 2 = n then
      if n ≤ xs.length then some ((xs.take n).sum / (n : ℚ)) else none
    else
      match emaAt n xs i, (xs.drop (i + 1)).head? with
      | some prev, some x => some ((x - prev) * (2 / ((n : ℚ) + 1)) + prev)
      | _, _ => none

/-- Modelled from the spec: the full EMA column produced by
`ta.EMA(dataframe, timeperiod=n)`, aligned 1:1 with the input closes. -/
def ta_EMA (n : ℕ) (xs : List ℚ) : List (Option ℚ) :=
  (List.range xs.length).map (emaAt n xs)

/-- A dataframe as seen by `custom_stoploss`: its close column together with
its (possibly absent) 50-period EMA column (`ema50_1h` on the 1h frame,
`ema50` on the primary frame). -/
structure Frame where
  closes : List ℚ
  emaCol : Option (List (Option ℚ))
  deriving DecidableEq

/-- The host data provider `self.dp` as used by
`ComplexStrategy.custom_stoploss` / `SampleStrategyEnhanced.custom_stoploss`:
the result of `get_pair_dataframe(pair, "1h")` and of
`get_pair_dataframe(pair, self.timeframe)`; `none` means the fetch fails. -/
structure DataProvider where
  frame1h : Option Frame
  frameMain : Option Frame
  deriving DecidableEq

/-- The `try:` block over the 1h dataframe in `custom_stoploss`: raise (model:
`none`) when the frame is missing or empty; otherwise compute and store the
`ema50_1h` column when it is absent, and compare the last close with the last
EMA value (a NaN EMA compares as unfavorable, as in pandas).  Returns the trend
flag (or `none` for an exception) together with the data provider state,
whose 1h frame now carries the EMA column. -/
def try1hTrend (dp : DataProvider) : Option Bool × DataProvider :=
  match dp.frame1h with
  | none => (none, dp)
  | some fr =>
    match fr.closes.getLast? with
    | none => (none, dp)
    | some c =>
      let emaVals := fr.emaCol.getD (ta_EMA 50 fr.closes)
      let dp' : DataProvider := { dp with frame1h := some ⟨fr.closes, some emaVals⟩ }
      match emaVals.getLast? with
      | none => (none, dp')
      | some oe => (some (optLtB oe (some c)), dp')

/-- The nested `try:` block over the primary-timeframe dataframe in
`custom_stoploss`: raise (model: `none`) when the frame is missing, empty, or
lacks the `ema50` column; otherwise compare the last close with the last EMA
value.  This path performs no writes. -/
def tryMainTrend (dp : DataProvider) : Option Bool :=
  match dp.frameMain with
  | none => none
  | some fr =>
    match fr.closes.getLast?, fr.emaCol with
    | some c, some col =>
      match col.getLast? with
      | some oe => some (optLtB oe (some c))
      | none => none
    | _, _ => none

/-- The overall trend retrieval of `custom_stoploss`: the 1h attempt, falling
back on exception to the primary-timeframe attempt. -/
def retrievedTrend (dp : DataProvider) : Option Bool :=
  match try1hTrend dp with
  | (some t, _) => some t
  | (none, dp') => tryMainTrend dp'

/-- Strategy parameters of `ComplexStrategy` / `SampleStrategyEnhanced` that
`custom_stoploss` reads (hyperopt parameters, so kept abstract). -/
structure StratParams where
  timeout_minutes : ℚ
  min_profit : ℚ
  slippage : ℚ
  deriving DecidableEq

/-- Class attribute `maker_fee = Decimal("0.001")` of `ComplexStrategy`. -/
def maker_fee : ℚ := 1 / 1000

/-- Class attribute `taker_fee = Decimal("0.001")` of `ComplexStrategy`. -/
def taker_fee : ℚ := 1 / 1000

/-- Class attribute `stoploss = -0.03` of `ComplexStrategy` and
`SampleStrategyEnhanced`, bound to `default_stop` inside `custom_stoploss`. -/
def default_stop : ℚ := -3 / 100

/-- `ComplexStrategy.simulate_slippage`: buy prices slip up, sell prices slip
down by the slippage fraction. -/
def simulate_slippage (price : ℚ) (is_buy : Bool) (slippage : ℚ) : ℚ :=
  if is_buy then price * (1 + slippage) else price * (1 - slippage)

/-- `ComplexStrategy.calculate_fees`: fee = amount × fee rate. -/
def calculate_fees (amount : ℚ) (fee : ℚ) : ℚ :=
  amount * fee

/-- The adjusted profit computed inside `ComplexStrategy.custom_stoploss`:
open fee on `open_rate × amount` at the maker rate, close fee on
`current_rate × amount` at the taker rate, slippage applied up on the buy
price and down on the sell price, then
`(sell − buy) × amount − (fee_open + fee_close)`. -/
def adjustedProfit (p : StratParams) (open_rate current_rate amount : ℚ) : ℚ :=
  let trade_fee_open := calculate_fees (open_rate * amount) maker_fee
  let trade_fee_close := calculate_fees (current_rate * amount) taker_fee
  let adjusted_current_rate_buy := simulate_slippage open_rate true p.slippage
  let adjusted_current_rate_sell := simulate_slippage current_rate false p.slippage
  (adjusted_current_rate_sell - adjusted_current_rate_buy) * amount
    - (trade_fee_open + trade_fee_close)

/-- The post-timeout decision tail of `ComplexStrategy.custom_stoploss`, given
the retrieved trend flag: exit (return 0) when the adjusted profit is positive
and the trend unfavorable, or at least `min_profit`, or negative; otherwise
hold at the default floor. -/
def complex_stop_decision (p : StratParams) (ema_trend : Bool)
    (open_rate amount current_rate : ℚ) : ℚ :=
  let adjusted_profit := adjustedProfit p open_rate current_rate amount
  if 0 < adjusted_profit ∧ ema_trend = false then 0
  else if p.min_profit ≤ adjusted_profit then 0
  else if adjusted_profit < 0 then 0
  else default_stop

/-- `ComplexStrategy.custom_stoploss`.  `elapsed_minutes` stands for
`(current_time - trade.open_date_utc).total_seconds() / 60`; `current_profit`
is only logged by the source, never used in the decision.  Returns the decided
stoploss together with the data provider state (the 1h frame may have gained
its EMA column). -/
def complex_custom_stoploss (p : StratParams) (dp : DataProvider)
    (elapsed_minutes open_rate amount current_rate current_profit : ℚ) :
    ℚ × DataProvider :=
  if elapsed_minutes < p.timeout_minutes then (default_stop, dp)
  else
    match try1hTrend dp with
    | (some ema_trend, dp') =>
      (complex_stop_decision p ema_trend open_rate amount current_rate, dp')
    | (none, dp') =>
      match tryMainTrend dp' with
      | some ema_trend =>
        (complex_stop_decision p ema_trend open_rate amount current_rate, dp')
      | none => (default_stop, dp')

/-- The post-timeout decision tail of `SampleStrategyEnhanced.custom_stoploss`:
as in `ComplexStrategy` but on the raw `current_profit`. -/
def sample_stop_decision (p : StratParams) (ema_trend : Bool)
    (current_profit : ℚ) : ℚ :=
  if 0 < current_profit ∧ ema_trend = false then 0
  else if p.min_profit ≤ current_profit then 0
  else if current_profit < 0 then 0
  else default_stop

/-- `SampleStrategyEnhanced.custom_stoploss`: identical control flow to
`ComplexStrategy.custom_stoploss`, but the decision uses `current_profit`
directly (no slippage/fee adjustment). -/
def sample_custom_stoploss (p : StratParams) (dp : DataProvider)
    (elapsed_minutes current_profit : ℚ) : ℚ × DataProvider :=
  if elapsed_minutes < p.timeout_minutes then (default_stop, dp)
  else
    match try1hTrend dp with
    | (some ema_trend, dp') => (sample_stop_decision p ema_trend current_profit, dp')
    | (none, dp') =>
      match tryMainTrend dp' with
      | some ema_trend => (sample_stop_decision p ema_trend current_profit, dp')
      | none => (default_stop, dp')

/-- True when a fetched dataframe is `None` or empty — the condition under
which `custom_stoploss` raises and falls through to the next data source. -/
def frameMissing : Option Frame → Bool
  | none => true
  | some fr => fr.closes.isEmpty

/-- Last value of `column.rolling(n).mean()` over a NaN-free column: the mean
of the last `n` values when the column has at least `n` of them, NaN
(`none`) otherwise. -/
def rollingMeanLast (n : ℕ) (xs : List ℚ) : Option ℚ :=
  if n ≤ xs.length then some ((xs.drop (xs.length - n)).sum / (n : ℚ)) else none

/-- The condition `atr > atr_mean * 1.5` of `FlexibleStrategy.custom_stoploss`
(false when the 20-bar rolling mean is still NaN, as in pandas). -/
def atr_widen (atrs : List ℚ) (atr : ℚ) : Bool :=
  match rollingMeanLast 20 atrs with
  | some m => decide (m * (3 / 2) < atr)
  | none => false

/-- `FlexibleStrategy.custom_stoploss`.  `df` is the `atr` column of the
analyzed primary-timeframe dataframe (`none` when `get_analyzed_dataframe`
yields no frame).  Default floor −0.10; −0.20 when the last ATR exceeds 1.5×
its 20-bar rolling mean; `max` against −ATR/rate×1.5 when `current_profit` is
above 0.10, against −ATR/rate×2.0 when `current_profit` is below 0.05. -/
def flex_custom_stoploss (df : Option (List ℚ)) (current_profit current_rate : ℚ) : ℚ :=
  match df with
  | none => -(1 / 10)
  | some atrs =>
    match atrs.getLast? with
    | none => -(1 / 10)
    | some atr =>
      let stoploss : ℚ := if atr_widen atrs atr then -(1 / 5) else -(1 / 10)
      if 1 / 10 < current_profit then max stoploss (-(atr / current_rate * (3 / 2)))
      else if current_profit < 1 / 20 then max stoploss (-(atr / current_rate * 2))
      else stoploss

/-- The data the `FlexibleStrategy` hooks can reach through
`self.dp.get_analyzed_dataframe`: the `rsi` column of the analyzed
primary-timeframe (`self.timeframe`) dataframe, and the `rsi` column of the
declared 1h informative dataframe.  `custom_stake_amount` fetches only the
primary one. -/
structure FlexDP where
  primaryRsi : Option (List ℚ)
  informativeRsi1h : Option (List ℚ)
  deriving DecidableEq

/-- `FlexibleStrategy.custom_stake_amount`: fetches the analyzed dataframe for
`(pair, self.timeframe)` — the primary timeframe — binds its last `rsi` value
to the (misleadingly named) local `rsi_1h`, and returns half of `max_stake`
when that value exceeds 50, else the proposed stake. -/
def flex_custom_stake_amount (dp : FlexDP) (proposed_stake max_stake : ℚ) : ℚ :=
  match dp.primaryRsi with
  | none => proposed_stake
  | some rs =>
    match rs.getLast? with
    | none => proposed_stake
    | some rsi_1h => if 50 < rsi_1h then max_stake * (1 / 2) else proposed_stake

/-- Rounding to two decimal places (half away from zero on the positive side),
used to state the spec's worked adjusted-profit example. -/
def roundTo2 (x : ℚ) : ℚ :=
  ((⌊x * 100 + 1 / 2⌋ : ℤ) : ℚ) / 100

@[simp] lemma optLtB_none_left (b : Option ℚ) : optLtB none b = false := by
  cases b <;> rfl

@[simp] lemma optLtB_none_right (a : Option ℚ) : optLtB a none = false := by
  cases a <;> rfl

@[simp] lemma optLeB_none_left (b : Option ℚ) : optLeB none b = false := by
  cases b <;> rfl

@[simp] lemma optLeB_none_right (a : Option ℚ) : optLeB a none = false := by
  cases a <;> rfl

@[simp] lemma optLtB_some_some (a b : ℚ) : optLtB (some a) (some b) = decide (a < b) := rfl

@[simp] lemma optLeB_some_some (a b : ℚ) : optLeB (some a) (some b) = decide (a ≤ b) := rfl

lemma optLtB_true_of_swap {a b : Option ℚ} (h : optLtB a b = true) : optLtB b a = false := by
  cases a <;> cases b <;> simp_all
  exact h.le

/-- C2: the crossing-above test gating `enter_long` / `exit_long` is true at
`i ≥ 1` iff the series is strictly below the threshold at `i - 1` and at or
above it at `i`, and is false at `i = 0`. -/
theorem crossed_above_edge_trigger :
    (∀ (s : List (Option ℚ)) (T : ℚ) (i : ℕ) (a b : ℚ), 1 ≤ i →
      valAt s (i - 1) = some a → valAt s i = some b →
      (crossed_above s T i = true ↔ (a < T ∧ T ≤ b))) ∧
    (∀ (s : List (Option ℚ)) (T : ℚ), crossed_above s T 0 = false) := by
  constructor
  · intro s T i a b hi ha hb
    obtain ⟨j, rfl⟩ : ∃ j, i = j + 1 := ⟨i - 1, (Nat.succ_pred_eq_of_pos hi).symm⟩
    simp only [Nat.add_sub_cancel] at ha
    simp [crossed_above, shift1, ha, hb]
  · intro s T
    simp [crossed_above, shift1]

/-- Witness for C2 at a concrete series. -/
theorem crossed_above_edge_trigger_witness :
    (crossed_above [some 1, some 5] 3 1 = true ↔ ((1 : ℚ) < 3 ∧ (3 : ℚ) ≤ 5)) ∧
    crossed_above [some (1 : ℚ), some 5] 3 0 = false :=
  ⟨crossed_above_edge_trigger.1 [some 1, some 5] 3 1 1 5 (by decide) rfl rfl,
   crossed_above_edge_trigger.2 [some 1, some 5] 3⟩

/-- C7: at any index where an indicator feeding an entry or exit rule is still
undefined (NaN), the corresponding flag is false, for both strategies' entry
and exit rules. -/
theorem undefined_indicator_flags_false
    (rsi adx macdhist volume close tema bb_middleband : List (Option ℚ))
    (buy_rsi sell_rsi adx_threshold macd_hist_threshold volume_threshold : ℚ)
    (i : ℕ) :
    ((valAt rsi i = none ∨ valAt tema i = none ∨ valAt bb_middleband i = none) →
      complex_enter_long rsi tema bb_middleband buy_rsi i = false ∧
      complex_exit_long rsi tema bb_middleband sell_rsi i = false) ∧
    ((valAt rsi i = none ∨ valAt adx i = none ∨ valAt macdhist i = none ∨
        valAt bb_middleband i = none) →
      flex_enter_long rsi adx macdhist volume close bb_middleband
        buy_rsi adx_threshold macd_hist_threshold volume_threshold i = false) ∧
    ((valAt rsi i = none ∨ valAt macdhist i = none ∨ valAt bb_middleband i = none) →
      flex_exit_long rsi macdhist close bb_middleband sell_rsi i = false) := by
  refine ⟨fun h => ?_, fun h => ?_, fun h => ?_⟩
  · rcases h with h | h | h <;>
      constructor <;>
        simp [complex_enter_long, complex_exit_long, crossed_above, h]
  · rcases h with h | h | h | h <;>
      simp [flex_enter_long, h]
  · rcases h with h | h | h <;>
      simp [flex_exit_long, h]

/-- Witness for C7 on columns that are NaN everywhere. -/
theorem undefined_indicator_flags_false_witness :
    (complex_enter_long [none] [none] [none] 30 0 = false ∧
      complex_exit_long [none] [none] [none] 70 0 = false) ∧
    flex_enter_long [none] [none] [none] [none] [none] [none] 45 20 (1 / 10) 1 0 = false ∧
    flex_exit_long [none] [none] [none] [none] 70 0 = false :=
  ⟨(undefined_indicator_flags_false [none] [none] [none] [none] [none] [none] [none]
      30 70 20 (1 / 10) 1 0).1 (Or.inl rfl),
   (undefined_indicator_flags_false [none] [none] [none] [none] [none] [none] [none]
      45 70 20 (1 / 10) 1 0).2.1 (Or.inl rfl),
   (undefined_indicator_flags_false [none] [none] [none] [none] [none] [none] [none]
      45 70 20 (1 / 10) 1 0).2.2 (Or.inl rfl)⟩

/-- C8: under the conjunctive rule definitions, `enter_long` and `exit_long`
are never both set at the same index, for either strategy: entry requires the
TEMA (resp. close) strictly below the Bollinger middle band, exit strictly
above. -/
theorem enter_exit_mutually_exclusive
    (rsi adx macdhist volume close tema bb_middleband : List (Option ℚ))
    (buy_rsi sell_rsi adx_threshold macd_hist_threshold volume_threshold : ℚ)
    (i : ℕ) :
    (complex_enter_long rsi tema bb_middleband buy_rsi i
        && complex_exit_long rsi tema bb_middleband sell_rsi i) = false ∧
    (flex_enter_long rsi adx macdhist volume close bb_middleband
        buy_rsi adx_threshold macd_hist_threshold volume_threshold i
        && flex_exit_long rsi macdhist close bb_middleband sell_rsi i) = false := by
  constructor
  · cases hx : optLtB (valAt tema i) (valAt bb_middleband i) with
    | false => simp [complex_enter_long, hx]
    | true => simp [complex_exit_long, optLtB_true_of_swap hx]
  · cases hx : optLtB (valAt close i) (valAt bb_middleband i) with
    | false => simp [flex_enter_long, hx]
    | true => simp [flex_exit_long, optLtB_true_of_swap hx]

/-- C4: the spec's worked example for the adjusted profit of
`ComplexStrategy.custom_stoploss`: open rate 100, current rate 110, amount 1,
slippage 0.001, maker = taker fee 0.001 give an adjusted profit of exactly
9.58, hence 9.58 after rounding to two decimal places. -/
theorem adjusted_profit_worked_example :
    adjustedProfit ⟨60, 75 / 10000, 1 / 1000⟩ 100 110 1 = 958 / 100 ∧
    roundTo2 (adjustedProfit ⟨60, 75 / 10000, 1 / 1000⟩ 100 110 1) = 958 / 100 := by
  constructor
  · norm_num [adjustedProfit, simulate_slippage, calculate_fees, maker_fee, taker_fee]
  · have h : adjustedProfit ⟨60, 75 / 10000, 1 / 1000⟩ 100 110 1 = 958 / 100 := by
      norm_num [adjustedProfit, simulate_slippage, calculate_fees, maker_fee, taker_fee]
    have hf : (⌊(958 : ℚ) / 100 * 100 + 1 / 2⌋ : ℤ) = 958 := by
      rw [show (958 : ℚ) / 100 * 100 + 1 / 2 = 1917 / 2 by norm_num, Int.floor_eq_iff]
      norm_num
    rw [roundTo2, h, hf]
    norm_num

/-- C6 (code-bug evidence): `FlexibleStrategy.custom_stake_amount` bases its
decision on the primary-timeframe RSI column, not on the 1h informative RSI
its own docstring and log message describe: with primary RSI 40 and 1h RSI 60
it returns the proposed stake, and with primary RSI 60 and 1h RSI 40 it
returns half of the maximum stake. -/
theorem flex_stake_uses_primary_timeframe :
    flex_custom_stake_amount ⟨some [40], some [60]⟩ 100 1000 = 100 ∧
    flex_custom_stake_amount ⟨some [60], some [40]⟩ 100 1000 = 500 := by
  constructor <;> norm_num [flex_custom_stake_amount]

lemma mem_of_getLast_eq_some {l : List ℚ} {a : ℚ} (h : l.getLast? = some a) :
    a ∈ l := by
  obtain ⟨hne, heq⟩ := List.mem_getLast?_eq_getLast (Option.mem_def.mpr h)
  subst heq
  exact List.getLast_mem hne

/-- C5: the stoploss floor of `FlexibleStrategy.custom_stoploss`, stated as
the spec's decision table: default −0.10, widened to −0.20 exactly when the
current ATR exceeds 1.5× its 20-bar rolling mean; with profit above 10% the
candidate −1.5×ATR/rate competes, with profit below 5% the candidate
−2.0×ATR/rate competes, the less-negative one winning via `max`. -/
theorem flex_stoploss_floor_table (atrs : List ℚ)
    (a current_profit current_rate : ℚ) (hlast : atrs.getLast? = some a) :
    flex_custom_stoploss (some atrs) current_profit current_rate =
      (let wideFloor : ℚ :=
        if (match rollingMeanLast 20 atrs with
            | some m => decide (3 / 2 * m < a)
            | none => false) = true then -(1 / 5) else -(1 / 10)
       if 1 / 10 < current_profit then max wideFloor (-(3 / 2 * a / current_rate))
       else if current_profit < 1 / 20 then max wideFloor (-(2 * a / current_rate))
       else wideFloor) := by
  simp only [flex_custom_stoploss, hlast]
  rcases hm : rollingMeanLast 20 atrs with _ | m <;>
    · simp only [atr_widen, hm, mul_comm]
      split_ifs <;> first
        | rfl
        | (congr 1; ring)

/-- Witness for C5 at a concrete ATR column. -/
theorem flex_stoploss_floor_table_witness :
    flex_custom_stoploss (some [1]) 0 1 =
      (let wideFloor : ℚ :=
        if (match rollingMeanLast 20 [(1 : ℚ)] with
            | some m => decide (3 / 2 * m < 1)
            | none => false) = true then -(1 / 5) else -(1 / 10)
       if 1 / 10 < (0 : ℚ) then max wideFloor (-(3 / 2 * 1 / 1))
       else if (0 : ℚ) < 1 / 20 then max wideFloor (-(2 * 1 / 1))
       else wideFloor) :=
  flex_stoploss_floor_table [1] 1 0 1 rfl

/-- C10: with a positive current rate and a non-negative ATR column, the
stoploss returned by `FlexibleStrategy.custom_stoploss` always lies in
`[−0.20, 0]`, and a missing or empty analyzed dataframe yields exactly
−0.10. -/
theorem flex_stoploss_bounded (atrs : List ℚ) (current_profit current_rate : ℚ)
    (hrate : 0 < current_rate) (hatr : ∀ x ∈ atrs, 0 ≤ x) :
    (-(1 / 5) ≤ flex_custom_stoploss (some atrs) current_profit current_rate ∧
      flex_custom_stoploss (some atrs) current_profit current_rate ≤ 0) ∧
    flex_custom_stoploss none current_profit current_rate = -(1 / 10) ∧
    flex_custom_stoploss (some ([] : List ℚ)) current_profit current_rate
      = -(1 / 10) := by
  refine ⟨?_, rfl, rfl⟩
  rcases hlast : atrs.getLast? with _ | atr
  · simp only [flex_custom_stoploss, hlast]
    norm_num
  · have hatr' : 0 ≤ atr := hatr atr (mem_of_getLast_eq_some hlast)
    have hc1 : -(atr / current_rate * (3 / 2)) ≤ 0 := by
      have := mul_nonneg (div_nonneg hatr' hrate.le) (by norm_num : (0 : ℚ) ≤ 3 / 2)
      linarith
    have hc2 : -(atr / current_rate * 2) ≤ 0 := by
      have := mul_nonneg (div_nonneg hatr' hrate.le) (by norm_num : (0 : ℚ) ≤ 2)
      linarith
    have key : ∀ base c : ℚ, -(1 / 5) ≤ base → base ≤ 0 → c ≤ 0 →
        -(1 / 5) ≤ max base c ∧ max base c ≤ 0 := fun base c h1 h2 h3 =>
      ⟨le_trans h1 (le_max_left _ _), max_le h2 h3⟩
    cases hw : atr_widen atrs atr <;>
      · simp only [flex_custom_stoploss, hlast, hw, Bool.false_eq_true, if_false,
          if_true, ite_false, ite_true]
        split_ifs with h1 h2
        · exact key _ _ (by norm_num) (by norm_num) hc1
        · exact key _ _ (by norm_num) (by norm_num) hc2
        · constructor <;> norm_num

lemma complex_stop_decision_eq_ite (p : StratParams) (t : Bool)
    (open_rate amount current_rate : ℚ) :
    complex_stop_decision p t open_rate amount current_rate =
      if (0 < adjustedProfit p open_rate current_rate amount ∧ t = false) ∨
          p.min_profit ≤ adjustedProfit p open_rate current_rate amount ∨
          adjustedProfit p open_rate current_rate amount < 0
      then 0 else default_stop := by
  simp only [complex_stop_decision]
  split_ifs <;> tauto

lemma try1hTrend_of_missing {dp : DataProvider}
    (h : frameMissing dp.frame1h = true) : try1hTrend dp = (none, dp) := by
  rcases hd : dp.frame1h with _ | fr
  · simp [try1hTrend, hd]
  · obtain ⟨cl, em⟩ := fr
    rw [hd] at h
    simp only [frameMissing] at h
    have hcl : cl = [] := List.isEmpty_iff.mp h
    subst hcl
    simp [try1hTrend, hd]

lemma tryMainTrend_of_missing {dp : DataProvider}
    (h : frameMissing dp.frameMain = true) : tryMainTrend dp = none := by
  rcases hd : dp.frameMain with _ | fr
  · simp [tryMainTrend, hd]
  · obtain ⟨cl, em⟩ := fr
    rw [hd] at h
    simp only [frameMissing] at h
    have hcl : cl = [] := List.isEmpty_iff.mp h
    subst hcl
    cases em <;> simp [tryMainTrend, hd]

lemma try1hTrend_idem (dp : DataProvider) :
    try1hTrend (try1hTrend dp).2 = ((try1hTrend dp).1, (try1hTrend dp).2) := by
  rcases hd : dp.frame1h with _ | ⟨cl, em⟩
  · simp [try1hTrend, hd]
  · rcases hc : cl.getLast? with _ | c
    · simp [try1hTrend, hd, hc]
    · rcases hE : (em.getD (ta_EMA 50 cl)).getLast? with _ | oe <;>
        simp [try1hTrend, hd, hc, hE]

/-- C1: `ComplexStrategy.custom_stoploss` holds at the −0.03 default floor
before the timeout regardless of profit or trend; after the timeout, once a
trend flag is retrieved, it returns 0 exactly when the adjusted profit is
positive with an unfavorable trend, or at least `min_profit`, or negative, and
−0.03 in every remaining case. -/
theorem complex_stoploss_decision_table (p : StratParams) (dp : DataProvider)
    (elapsed_minutes open_rate amount current_rate current_profit : ℚ) :
    (elapsed_minutes < p.timeout_minutes →
      (complex_custom_stoploss p dp elapsed_minutes open_rate amount current_rate
          current_profit).1 = -3 / 100) ∧
    (p.timeout_minutes ≤ elapsed_minutes →
      ∀ t : Bool, retrievedTrend dp = some t →
        (complex_custom_stoploss p dp elapsed_minutes open_rate amount current_rate
            current_profit).1 =
          if (0 < adjustedProfit p open_rate current_rate amount ∧ t = false) ∨
              p.min_profit ≤ adjustedProfit p open_rate current_rate amount ∨
              adjustedProfit p open_rate current_rate amount < 0
          then 0 else -3 / 100) := by
  have hds : default_stop = -3 / 100 := by norm_num [default_stop]
  constructor
  · intro h
    simp [complex_custom_stoploss, h, hds]
  · intro h t ht
    have hn : ¬ elapsed_minutes < p.timeout_minutes := not_lt.mpr h
    rcases h1 : try1hTrend dp with ⟨ot, dp2⟩
    simp only [retrievedTrend, h1] at ht
    cases ot with
    | some t0 =>
      obtain rfl : t0 = t := Option.some.inj ht
      simp [complex_custom_stoploss, hn, h1, complex_stop_decision_eq_ite, hds]
    | none =>
      replace ht : tryMainTrend dp2 = some t := ht
      simp [complex_custom_stoploss, hn, h1, ht, complex_stop_decision_eq_ite, hds]

/-- Witness for C1: one pre-timeout call and one post-timeout call with a
retrieved (unfavorable) trend. -/
theorem complex_stoploss_decision_table_witness :
    (complex_custom_stoploss ⟨60, 75 / 10000, 1 / 1000⟩ ⟨none, none⟩
        10 100 1 110 0).1 = -3 / 100 ∧
    (complex_custom_stoploss ⟨60, 75 / 10000, 1 / 1000⟩
        ⟨some ⟨[100, 100], some [none, some 150]⟩, none⟩ 100 100 1 110 0).1 =
      if (0 < adjustedProfit ⟨60, 75 / 10000, 1 / 1000⟩ 100 110 1 ∧ false = false) ∨
          (⟨60, 75 / 10000, 1 / 1000⟩ : StratParams).min_profit ≤
            adjustedProfit ⟨60, 75 / 10000, 1 / 1000⟩ 100 110 1 ∨
          adjustedProfit ⟨60, 75 / 10000, 1 / 1000⟩ 100 110 1 < 0
      then 0 else -3 / 100 :=
  ⟨(complex_stoploss_decision_table ⟨60, 75 / 10000, 1 / 1000⟩ ⟨none, none⟩
      10 100 1 110 0).1 (by norm_num),
   (complex_stoploss_decision_table ⟨60, 75 / 10000, 1 / 1000⟩
      ⟨some ⟨[100, 100], some [none, some 150]⟩, none⟩ 100 100 1 110 0).2
     (by norm_num) false (by decide)⟩

/-- C3: after the timeout, when the 1h fetch fails or yields an empty frame the
trend check of `custom_stoploss` falls back to the primary-timeframe frame, and
when that is also missing or empty both strategies return the −0.03 static
floor; the embedded functions are total, so no exception can propagate. -/
theorem complex_stoploss_fallback (p : StratParams) (dp : DataProvider)
    (elapsed_minutes open_rate amount current_rate current_profit : ℚ)
    (htimeout : p.timeout_minutes ≤ elapsed_minutes)
    (h1h : frameMissing dp.frame1h = true) :
    (∀ t : Bool, tryMainTrend dp = some t →
      (complex_custom_stoploss p dp elapsed_minutes open_rate amount current_rate
          current_profit).1 = complex_stop_decision p t open_rate amount current_rate ∧
      (sample_custom_stoploss p dp elapsed_minutes current_profit).1 =
        sample_stop_decision p t current_profit) ∧
    (frameMissing dp.frameMain = true →
      (complex_custom_stoploss p dp elapsed_minutes open_rate amount current_rate
          current_profit).1 = -3 / 100 ∧
      (sample_custom_stoploss p dp elapsed_minutes current_profit).1 = -3 / 100) := by
  have hn : ¬ elapsed_minutes < p.timeout_minutes := not_lt.mpr htimeout
  have h1 : try1hTrend dp = (none, dp) := try1hTrend_of_missing h1h
  constructor
  · intro t ht
    constructor <;>
      simp [complex_custom_stoploss, sample_custom_stoploss, hn, h1, ht]
  · intro hm
    have h2 : tryMainTrend dp = none := tryMainTrend_of_missing hm
    constructor <;>
      simp [complex_custom_stoploss, sample_custom_stoploss, hn, h1, h2, default_stop]

/-- Witness for C3: both data sources missing after the timeout. -/
theorem complex_stoploss_fallback_witness :
    (complex_custom_stoploss ⟨60, 75 / 10000, 1 / 1000⟩ ⟨none, none⟩
        100 100 1 110 0).1 = -3 / 100 ∧
    (sample_custom_stoploss ⟨60, 75 / 10000, 1 / 1000⟩ ⟨none, none⟩ 100 0).1
      = -3 / 100 :=
  (complex_stoploss_fallback ⟨60, 75 / 10000, 1 / 1000⟩ ⟨none, none⟩
      100 100 1 110 0 (by norm_num) rfl).2 rfl

/-- C9: re-running `ComplexStrategy.custom_stoploss` on the data-provider
state left by a first run, with identical inputs, returns the same stoploss:
the only write the hook performs (caching the 1h EMA column) does not change
the second call's output.  (`FlexibleStrategy.custom_stoploss` performs no
writes at all, so its embedding `flex_custom_stoploss` is a pure function of
its inputs.) -/
theorem complex_stoploss_idempotent (p : StratParams) (dp : DataProvider)
    (elapsed_minutes open_rate amount current_rate current_profit : ℚ) :
    (complex_custom_stoploss p
        (complex_custom_stoploss p dp elapsed_minutes open_rate amount current_rate
            current_profit).2
        elapsed_minutes open_rate amount current_rate current_profit).1 =
      (complex_custom_stoploss p dp elapsed_minutes open_rate amount current_rate
          current_profit).1 := by
  by_cases h : elapsed_minutes < p.timeout_minutes
  · simp [complex_custom_stoploss, h]
  · rcases h1 : try1hTrend dp with ⟨ot, dp2⟩
    have hid := try1hTrend_idem dp
    rw [h1] at hid
    dsimp only at hid
    cases ot with
    | some t => simp [complex_custom_stoploss, h, h1, hid]
    | none =>
      rcases h2 : tryMainTrend dp2 with _ | t <;>
        simp [complex_custom_stoploss, h, h1, hid, h2]

/-- Witness for C10 at a concrete ATR column. -/
theorem flex_stoploss_bounded_witness :
    ((-(1 / 5) ≤ flex_custom_stoploss (some [1]) 0 1 ∧
        flex_custom_stoploss (some [1]) 0 1 ≤ 0) ∧
      flex_custom_stoploss none 0 1 = -(1 / 10) ∧
      flex_custom_stoploss (some ([] : List ℚ)) 0 1 = -(1 / 10)) :=
  flex_stoploss_bounded [1] 0 1 (by norm_num) (by
    intro x hx
    simp only [List.mem_singleton] at hx
    simp [hx])
